import Mathlib

/-!
Shallow embedding of the deterministic simulation core of `ggrs_test_game`
(`src/box_game.rs`): the `fletcher16` checksum, the `BoxGame` engine with its
`save_game_state`, `load_game_state` and `advance_frame` operations, and the
`BoxGameState` data model.

Modelling choices:
* `f32` values are carried as `ℚ`; the transcendental / irrational primitives
  the source uses (`cos`, `sin`, `sqrt`, the constant `π`) are abstracted into a
  record `FloatFns` of rational-valued functions, so every definition stays
  executable.  Theorems that need `sqrt` to behave like a square root take that
  as a pointwise hypothesis (`GoodSqrtAt`).
* `bincode` serialization of the game state is an external library; it is
  abstracted as a `Codec` record (`ser`/`deser`), with round-trip assumed only
  where a claim needs it, as a hypothesis.  `bincode` decoding of a single
  `u8` input byte is modelled concretely as taking the head of the buffer.
* Rust panics (`assert_eq!`, `unwrap`) are modelled as `Except`/`Option`
  failure.
* `macroquad`'s `screen_width()` is an external mutable environment value; it
  is passed to `advance_frame` as an explicit parameter `screenW`.  The source
  never reads `screen_height()` inside `advance_frame`: both position axes are
  clamped with `screen_width()` (lines 148-151 of `box_game.rs`).
-/

namespace BoxGameModel

/-- Frames are `i32` in the source (`ggrs::Frame`); modelled as `Int`. -/
abbrev Frame := Int

/-- Source `ggrs::NULL_FRAME`, the sentinel for "no input available" (value `-1`). -/
def NULL_FRAME : Frame := -1

/-- Source `const FPS: u64 = 60`. -/
def FPS : ℕ := 60

/-- Source `const NUM_PLAYERS: usize = 2`. -/
def NUM_PLAYERS : ℕ := 2

/-- Source `const CHECKSUM_PERIOD: i32 = 100`. -/
def CHECKSUM_PERIOD : Int := 100

/-- Source `const INPUT_UP: u8 = 1 << 0`. -/
def INPUT_UP : ℕ := 1 <<< 0

/-- Source `const INPUT_DOWN: u8 = 1 << 1`. -/
def INPUT_DOWN : ℕ := 1 <<< 1

/-- Source `const INPUT_LEFT: u8 = 1 << 2`. -/
def INPUT_LEFT : ℕ := 1 <<< 2

/-- Source `const INPUT_RIGHT: u8 = 1 << 3`. -/
def INPUT_RIGHT : ℕ := 1 <<< 3

/-- Source `const MOVEMENT_SPEED: f32 = 15.0 / FPS as f32` (ideal value). -/
def MOVEMENT_SPEED : ℚ := 15 / 60

/-- Source `const ROTATION_SPEED: f32 = 2.5 / FPS as f32` (ideal value). -/
def ROTATION_SPEED : ℚ := (5 / 2) / 60

/-- Source `const MAX_SPEED: f32 = 7.0`. -/
def MAX_SPEED : ℚ := 7

/-- Source `const FRICTION: f32 = 0.98` (ideal value). -/
def FRICTION : ℚ := 98 / 100

/-- Source `fn fletcher16(data: &[u8]) -> u16`, translated from the source loop.
The `u16` arithmetic never wraps: both running sums stay below 255, so plain
`ℕ` arithmetic is exact. -/
def fletcher16 (data : List ℕ) : ℕ :=
  let s := data.foldl
    (fun s b =>
      let s1 := (s.1 + b) % 255
      (s1, (s.2 + s1) % 255))
    (0, 0)
  (s.2 <<< 8) ||| s.1

/-- The two running sums of the checksum as the spec words them: `sum1`
accumulates each byte modulo 255, `sum2` accumulates the running `sum1`
modulo 255 after each step. -/
def fletcherSums (s1 s2 : ℕ) : List ℕ → ℕ × ℕ
  | [] => (s1, s2)
  | b :: rest => fletcherSums ((s1 + b) % 255) ((s2 + (s1 + b) % 255) % 255) rest

/-- The checksum as described by the spec: run the two running sums from zero
and combine as `(sum2 <<< 8) ||| sum1`. -/
def fletcher16Spec (data : List ℕ) : ℕ :=
  let s := fletcherSums 0 0 data
  (s.2 <<< 8) ||| s.1

/-- The abstracted `f32` primitives the transition function uses: `cos`, `sin`,
`sqrt` and the constant `std::f32::consts::PI`, as rational-valued data. -/
structure FloatFns where
  cos : ℚ → ℚ
  sin : ℚ → ℚ
  sqrtQ : ℚ → ℚ
  piQ : ℚ

/-- Source `struct BoxGameState { frame, positions, velocities, rotations }`. -/
structure BoxGameState where
  frame : Frame
  positions : List (ℚ × ℚ)
  velocities : List (ℚ × ℚ)
  rotations : List ℚ
deriving DecidableEq

/-- The type `ggrs::GameInput` as the engine sees it: an origination frame number and
the encoded input byte buffer. -/
structure GameInput where
  frame : Frame
  buffer : List ℕ
deriving DecidableEq

/-- The type `ggrs::GameState`: the contents deposited into a `GameStateCell` by
`GameState::new(frame, Some(buffer), Some(checksum))`. -/
structure GState where
  frame : Frame
  buffer : Option (List ℕ)
  checksum : Option ℕ
deriving DecidableEq

/-- The external `bincode` serialization of a `BoxGameState`, abstracted:
`ser` models `bincode::serialize` (total on this struct), `deser` models
`bincode::deserialize` (fallible). -/
structure Codec where
  ser : BoxGameState → List ℕ
  deser : List ℕ → Option BoxGameState

/-- Source `struct BoxGame { game_state, last_checksum, periodic_checksum }`
(the `key_states` field only feeds `local_input`, outside the claims). -/
structure BoxGame where
  gameState : BoxGameState
  lastChecksum : Frame × ℕ
  periodicChecksum : Frame × ℕ
deriving DecidableEq

/-- Model of `f32::rem_euclid` for a positive modulus, as used on rotations:
`a.rem_euclid(b) = a - b * ⌊a / b⌋`. -/
def remEuclid (a b : ℚ) : ℚ := a - b * (Rat.floor (a / b) : ℚ)

/-- Model of `bincode::deserialize::<u8>` on an input buffer: reads the first byte,
fails on an empty buffer. -/
def decodeInputByte (buf : List ℕ) : Option ℕ := buf.head?

/-- The effective input byte for one player in `advance_frame`: the literal
`4` ("disconnected players spin") when the input frame is the sentinel
`NULL_FRAME`, otherwise the decoded buffer byte. -/
def effInput (gi : GameInput) : Option ℕ :=
  if gi.frame = NULL_FRAME then some 4 else decodeInputByte gi.buffer

/-- Friction then thrust, from `advance_frame` (lines 113-126): decay both
velocity axes by `FRICTION`, then add or subtract `MOVEMENT_SPEED` along the
current heading according to the up/down input bits. -/
def frictionThrustVel (f : FloatFns) (input : ℕ) (vel : ℚ × ℚ) (rot : ℚ) : ℚ × ℚ :=
  let velX := vel.1 * FRICTION
  let velY := vel.2 * FRICTION
  let v :=
    if input &&& INPUT_UP ≠ 0 ∧ input &&& INPUT_DOWN = 0 then
      (velX + MOVEMENT_SPEED * f.cos rot, velY + MOVEMENT_SPEED * f.sin rot)
    else (velX, velY)
  if input &&& INPUT_UP = 0 ∧ input &&& INPUT_DOWN ≠ 0 then
    (v.1 - MOVEMENT_SPEED * f.cos rot, v.2 - MOVEMENT_SPEED * f.sin rot)
  else v

/-- Turning, from `advance_frame` (lines 127-134): step the rotation by
`ROTATION_SPEED` left or right and wrap with `rem_euclid` into `[0, 2π)`. -/
def turnRot (f : FloatFns) (input : ℕ) (rot : ℚ) : ℚ :=
  let r :=
    if input &&& INPUT_LEFT ≠ 0 ∧ input &&& INPUT_RIGHT = 0 then
      remEuclid (rot - ROTATION_SPEED) (2 * f.piQ)
    else rot
  if input &&& INPUT_LEFT = 0 ∧ input &&& INPUT_RIGHT ≠ 0 then
    remEuclid (r + ROTATION_SPEED) (2 * f.piQ)
  else r

/-- Speed limiting, from `advance_frame` (lines 136-141): if the magnitude
`sqrt(vx² + vy²)` exceeds `MAX_SPEED`, scale both components by
`MAX_SPEED / magnitude`. -/
def clampSpeed (f : FloatFns) (v : ℚ × ℚ) : ℚ × ℚ :=
  let magnitude := f.sqrtQ (v.1 * v.1 + v.2 * v.2)
  if magnitude > MAX_SPEED then
    (v.1 * MAX_SPEED / magnitude, v.2 * MAX_SPEED / magnitude)
  else v

/-- Position clamping, from `advance_frame` (lines 148-151).  Note the source:
both `x` and `y` are clamped with `screen_width()` — `y` is NOT clamped with
`screen_height()`. -/
def clampPos (screenW : ℚ) (p : ℚ × ℚ) : ℚ × ℚ :=
  (min (max p.1 0) screenW, min (max p.2 0) screenW)

/-- The whole per-player body of the `advance_frame` loop, given the decoded
(or substituted) input byte. -/
def updatePlayer (f : FloatFns) (screenW : ℚ) (input : ℕ) (pos vel : ℚ × ℚ)
    (rot : ℚ) : (ℚ × ℚ) × (ℚ × ℚ) × ℚ :=
  let v1 := frictionThrustVel f input vel rot
  let rot2 := turnRot f input rot
  let v2 := clampSpeed f v1
  let p2 := clampPos screenW (pos.1 + v2.1, pos.2 + v2.2)
  (p2, v2, rot2)

/-- One iteration of the player loop in `advance_frame`: fetch the player's
input, substitute the spin input on the sentinel frame, read the player's old
kinematic state, update it, and write it back at index `i`.  Out-of-bounds
indexing (a Rust panic) is `none`. -/
def playerStep (f : FloatFns) (screenW : ℚ) (inputs : List GameInput)
    (st : BoxGameState) (i : ℕ) : Option BoxGameState := do
  let gi ← inputs[i]?
  let input ← effInput gi
  let pos ← st.positions[i]?
  let vel ← st.velocities[i]?
  let rot ← st.rotations[i]?
  let r := updatePlayer f screenW input pos vel rot
  some { st with
    positions := st.positions.set i r.1,
    velocities := st.velocities.set i r.2.1,
    rotations := st.rotations.set i r.2.2 }

/-- The state part of `advance_frame`: increment the frame counter, then run
the player loop for `i = 0` and `i = 1` (`NUM_PLAYERS = 2`). -/
def advanceState (f : FloatFns) (screenW : ℚ) (inputs : List GameInput)
    (st : BoxGameState) : Option BoxGameState := do
  let st1 := { st with frame := st.frame + 1 }
  let st2 ← playerStep f screenW inputs st1 0
  playerStep f screenW inputs st2 1

/-- Source `BoxGame::advance_frame`: advance the state, then serialize it, compute
its checksum, store it as `last_checksum`, and also as `periodic_checksum`
when the new frame is a multiple of `CHECKSUM_PERIOD`. -/
def advanceFrame (f : FloatFns) (c : Codec) (screenW : ℚ) (g : BoxGame)
    (inputs : List GameInput) : Option BoxGame := do
  let st ← advanceState f screenW inputs g.gameState
  let checksum := fletcher16 (c.ser st)
  some { gameState := st,
         lastChecksum := (st.frame, checksum),
         periodicChecksum :=
           if st.frame % CHECKSUM_PERIOD = 0 then (st.frame, checksum)
           else g.periodicChecksum }

/-- Iterated `advance_frame` over a sequence of per-player input batches. -/
def advanceSeq (f : FloatFns) (c : Codec) (screenW : ℚ) :
    BoxGame → List (List GameInput) → Option BoxGame
  | g, [] => some g
  | g, ins :: rest => do
      let g2 ← advanceFrame f c screenW g ins
      advanceSeq f c screenW g2 rest

/-- Source `BoxGame::save_game_state`: `assert_eq!(self.game_state.frame, frame)`
(modelled as `Except.error` on mismatch), then serialize, checksum, and
deposit `GameState::new(frame, Some(buffer), Some(checksum))` into the cell.
The engine value itself is returned unchanged alongside the deposited cell
contents. -/
def saveGameState (c : Codec) (g : BoxGame) (frame : Frame) :
    Except Unit (BoxGame × GState) :=
  if g.gameState.frame = frame then
    let buffer := c.ser g.gameState
    Except.ok (g, { frame := frame, buffer := some buffer,
                    checksum := some (fletcher16 buffer) })
  else Except.error ()

/-- Source `BoxGame::load_game_state`: read the cell, unwrap its buffer, deserialize
it and make it the live game state; checksum records are untouched. -/
def loadGameState (c : Codec) (g : BoxGame) (cell : GState) : Option BoxGame := do
  let buf ← cell.buffer
  let st ← c.deser buf
  some { g with gameState := st }

/-- Source `BoxGameState::new` for the 2-player session: players placed symmetrically
at mid-height, zero velocity, zero rotation, frame 0. -/
def BoxGameState.new (screenW screenH : ℚ) : BoxGameState :=
  { frame := 0,
    positions := [(screenW / 2 + (2 * 0 - 1) * (screenW / 4), screenH / 2),
                  (screenW / 2 + (2 * 1 - 1) * (screenW / 4), screenH / 2)],
    velocities := [(0, 0), (0, 0)],
    rotations := [0, 0] }

/-- Source `BoxGame::new`: fresh state, both checksum records `(NULL_FRAME, 0)`. -/
def BoxGame.new (screenW screenH : ℚ) : BoxGame :=
  { gameState := BoxGameState.new screenW screenH,
    lastChecksum := (NULL_FRAME, 0),
    periodicChecksum := (NULL_FRAME, 0) }

/-- The hypothesis that the abstract `sqrt` is an exact square root at the
squared magnitude of a given velocity vector. -/
def GoodSqrtAt (f : FloatFns) (v : ℚ × ℚ) : Prop :=
  0 ≤ f.sqrtQ (v.1 * v.1 + v.2 * v.2) ∧
  f.sqrtQ (v.1 * v.1 + v.2 * v.2) * f.sqrtQ (v.1 * v.1 + v.2 * v.2)
    = v.1 * v.1 + v.2 * v.2

/-! ### Concrete instances used by witnesses -/

/-- Concrete float primitives for witness evaluation: a square-root table that
is exact on the squared magnitudes arising in the witnesses. -/
def fops0 : FloatFns :=
  { cos := fun _ => 1, sin := fun _ => 0,
    sqrtQ := fun q => if q = 100 then 10 else 0, piQ := 3 }

/-- A codec whose serialized form is empty; used where `deser` is never
consulted. -/
def codec0 : Codec := { ser := fun _ => [], deser := fun _ => none }

/-- A codec that deserializes every buffer to a fixed state `s`; it satisfies
the round-trip contract at `s` itself. -/
def codecConst (s : BoxGameState) : Codec :=
  { ser := fun _ => [1], deser := fun _ => some s }

/-- A concrete two-player state used by witnesses. -/
def sampleState : BoxGameState :=
  { frame := 0, positions := [(500, 300), (200, 300)],
    velocities := [(0, 0), (0, 0)], rotations := [0, 0] }

/-- The state `sampleState` wrapped into a freshly constructed engine. -/
def sampleGame : BoxGame :=
  { gameState := sampleState, lastChecksum := (NULL_FRAME, 0),
    periodicChecksum := (NULL_FRAME, 0) }

/-- Both players send the all-zero input bitmask for frame 0. -/
def sampleInputs : List GameInput := [⟨0, [0]⟩, ⟨0, [0]⟩]

/-- The state `sampleInputs` leads `sampleGame` to: zero velocity decays to
zero, positions are inside the width-800 bounds, so only the frame moves. -/
def sampleGameAfter : BoxGame :=
  { gameState := { frame := 1, positions := [(500, 300), (200, 300)],
                   velocities := [(0, 0), (0, 0)], rotations := [0, 0] },
    lastChecksum := (1, 0), periodicChecksum := (NULL_FRAME, 0) }

/-! ### Claim theorems -/

theorem fletcherSums_eq_foldl (data : List ℕ) : ∀ s1 s2 : ℕ,
    data.foldl
      (fun s b =>
        let t := (s.1 + b) % 255
        (t, (s.2 + t) % 255)) (s1, s2) = fletcherSums s1 s2 data := by
  induction data with
  | nil => intro s1 s2; rfl
  | cons b rest ih => intro s1 s2; simpa [fletcherSums] using ih _ _

theorem fletcherSums_lt (data : List ℕ) : ∀ s1 s2 : ℕ, s1 < 255 → s2 < 255 →
    (fletcherSums s1 s2 data).1 < 255 ∧ (fletcherSums s1 s2 data).2 < 255 := by
  induction data with
  | nil => intro s1 s2 h1 h2; exact ⟨h1, h2⟩
  | cons b rest ih =>
      intro s1 s2 _ _
      exact ih _ _ (Nat.mod_lt _ (by norm_num)) (Nat.mod_lt _ (by norm_num))

/-- Claim C5: the checksum function, as implemented, agrees with the spec's
description — two running sums, each byte added to `sum1` modulo 255, the
running `sum1` added to `sum2` modulo 255 after each step, combined as
`(sum2 <<< 8) ||| sum1` — for every byte buffer; the result is a 16-bit
value; and, being a pure function of the buffer alone, it is deterministic
with no hidden state. -/
theorem fletcher16_correct (data : List ℕ) :
    fletcher16 data = fletcher16Spec data ∧ fletcher16 data < 2 ^ 16 := by
  have hspec : fletcher16 data = fletcher16Spec data := by
    unfold fletcher16 fletcher16Spec
    rw [fletcherSums_eq_foldl data 0 0]
  refine ⟨hspec, ?_⟩
  rw [hspec]
  unfold fletcher16Spec
  have h := fletcherSums_lt data 0 0 (by norm_num) (by norm_num)
  refine Nat.or_lt_two_pow ?_ (lt_trans h.1 (by norm_num))
  have e : (2 : ℕ) ^ 16 = 65536 := by norm_num
  have e2 : (2 : ℕ) ^ 8 = 256 := by norm_num
  have h2 := h.2
  rw [Nat.shiftLeft_eq, e, e2]
  omega

/-- Claim C4: `save_game_state` with a target frame different from the live
state's frame fails (the `assert_eq!` panic, modelled as `Except.error`),
never depositing anything; with a matching target frame it returns the engine
and deposits the serialized buffer together with its `fletcher16` checksum
into the cell under that frame. -/
theorem save_contract (c : Codec) (g : BoxGame) (fr : Frame) :
    (g.gameState.frame ≠ fr → saveGameState c g fr = Except.error ()) ∧
    (g.gameState.frame = fr → saveGameState c g fr =
      Except.ok (g, { frame := fr, buffer := some (c.ser g.gameState),
                      checksum := some (fletcher16 (c.ser g.gameState)) })) := by
  constructor
  · intro h; simp [saveGameState, h]
  · intro h; simp [saveGameState, h]

/-- Witness for C4 at a concrete engine: saving frame 7 from a frame-0 state
errors, saving frame 0 succeeds and deposits the buffer and checksum. -/
theorem save_contract_witness :
    saveGameState codec0 sampleGame 7 = Except.error () ∧
    saveGameState codec0 sampleGame 0 =
      Except.ok (sampleGame, { frame := 0, buffer := some [],
                               checksum := some 0 }) := by
  constructor
  · exact (save_contract codec0 sampleGame 7).1 (by norm_num [sampleGame, sampleState])
  · have h := (save_contract codec0 sampleGame 0).2 (by norm_num [sampleGame, sampleState])
    simpa [codec0, fletcher16] using h

/-- Claim C9: a successful `save_game_state` leaves the engine unchanged —
the live game state, the last-checksum record and the periodic-checksum
record all keep their pre-save values; only the external cell receives data. -/
theorem save_preserves_engine (c : Codec) (g : BoxGame) (fr : Frame)
    (pr : BoxGame × GState) (h : saveGameState c g fr = Except.ok pr) :
    pr.1 = g ∧ pr.1.gameState = g.gameState ∧
    pr.1.lastChecksum = g.lastChecksum ∧
    pr.1.periodicChecksum = g.periodicChecksum := by
  unfold saveGameState at h
  split at h
  · cases h
    exact ⟨rfl, rfl, rfl, rfl⟩
  · cases h

/-- Witness for C9: the concrete successful save from `sampleGame`. -/
theorem save_preserves_engine_witness :
    (sampleGame, ({ frame := 0, buffer := some [], checksum := some 0 } : GState)).1
      = sampleGame := by
  refine (save_preserves_engine codec0 sampleGame 0
    (sampleGame, { frame := 0, buffer := some [], checksum := some 0 }) ?_).1
  simp [saveGameState, sampleGame, sampleState, codec0, fletcher16]

/-- Claim C2: saving at the live state's own frame and immediately loading
the deposited cell reproduces the engine exactly — same frame, positions,
velocities and rotations — provided the codec round-trips on that state
(the `bincode` contract). -/
theorem save_load_roundtrip (c : Codec) (g : BoxGame) (fr : Frame)
    (hf : g.gameState.frame = fr)
    (hrt : c.deser (c.ser g.gameState) = some g.gameState) :
    ∃ cell, saveGameState c g fr = Except.ok (g, cell) ∧
      loadGameState c g cell = some g := by
  refine ⟨{ frame := fr, buffer := some (c.ser g.gameState),
            checksum := some (fletcher16 (c.ser g.gameState)) }, ?_, ?_⟩
  · simp [saveGameState, hf]
  · simp [loadGameState, hrt]

/-- Witness for C2 at frame 5: a concrete frame-5 state saved then loaded
comes back identical. -/
theorem save_load_roundtrip_witness :
    ∃ cell,
      saveGameState (codecConst { sampleState with frame := 5 })
        { sampleGame with gameState := { sampleState with frame := 5 } } 5
        = Except.ok
            ({ sampleGame with gameState := { sampleState with frame := 5 } }, cell) ∧
      loadGameState (codecConst { sampleState with frame := 5 })
        { sampleGame with gameState := { sampleState with frame := 5 } } cell
        = some { sampleGame with gameState := { sampleState with frame := 5 } } :=
  save_load_roundtrip _ _ 5 rfl rfl

/-- Claim C10: `load_game_state` wholesale replaces the live game state with
the deserialized cell contents, while both checksum records keep the values
computed before the load (they are not rewritten to match the loaded frame). -/
theorem load_replaces_state (c : Codec) (g : BoxGame) (cell : GState)
    (g2 : BoxGame) (h : loadGameState c g cell = some g2) :
    (∃ buf st, cell.buffer = some buf ∧ c.deser buf = some st ∧
      g2.gameState = st) ∧
    g2.lastChecksum = g.lastChecksum ∧
    g2.periodicChecksum = g.periodicChecksum := by
  unfold loadGameState at h
  simp only [bind, Option.bind_eq_some, Option.some.injEq] at h
  obtain ⟨buf, hb, st, hd, hg⟩ := h
  subst hg
  exact ⟨⟨buf, st, hb, hd, rfl⟩, rfl, rfl⟩

/-- Witness for C10: loading a cell into `sampleGame` with a constant codec
replaces the state and keeps both checksum records. -/
theorem load_replaces_state_witness :
    (∃ buf st, (some [9] : Option (List ℕ)) = some buf ∧
      (codecConst { sampleState with frame := 41 }).deser buf = some st ∧
      ({ sampleGame with gameState := { sampleState with frame := 41 } } : BoxGame).gameState = st) ∧
    ({ sampleGame with gameState := { sampleState with frame := 41 } } : BoxGame).lastChecksum
      = sampleGame.lastChecksum ∧
    ({ sampleGame with gameState := { sampleState with frame := 41 } } : BoxGame).periodicChecksum
      = sampleGame.periodicChecksum :=
  load_replaces_state (codecConst { sampleState with frame := 41 }) sampleGame
    { frame := 41, buffer := some [9], checksum := some 3 }
    { sampleGame with gameState := { sampleState with frame := 41 } } rfl

set_option maxHeartbeats 1000000 in
/-- Evaluation of one concrete Advance used to discharge hypotheses of
witnesses: zero velocities stay zero, so only the frame counter moves and the
last-checksum record is refreshed. -/
theorem sample_advance_eval :
    advanceFrame fops0 codec0 800 sampleGame sampleInputs = some sampleGameAfter := by
  norm_num [advanceFrame, advanceState, playerStep, effInput, decodeInputByte,
    updatePlayer, frictionThrustVel, turnRot, clampSpeed, clampPos, fletcher16,
    fops0, codec0, sampleGame, sampleState, sampleInputs, sampleGameAfter,
    NULL_FRAME, INPUT_UP, INPUT_DOWN, INPUT_LEFT, INPUT_RIGHT,
    MOVEMENT_SPEED, ROTATION_SPEED, MAX_SPEED, FRICTION, CHECKSUM_PERIOD]

/-- Claim C8: after an Advance the last-checksum record is exactly the pair
(new frame, checksum of the newly serialized state); the periodic-checksum
record is set to that same pair when the new frame is a multiple of the
checksum period — which defaults to 100 — and is left at its previous value
on every other frame. -/
theorem checksum_records (f : FloatFns) (c : Codec) (w : ℚ) (g g2 : BoxGame)
    (ins : List GameInput) (hadv : advanceFrame f c w g ins = some g2) :
    g2.lastChecksum = (g2.gameState.frame, fletcher16 (c.ser g2.gameState)) ∧
    (g2.gameState.frame % CHECKSUM_PERIOD = 0 →
      g2.periodicChecksum = (g2.gameState.frame, fletcher16 (c.ser g2.gameState))) ∧
    (g2.gameState.frame % CHECKSUM_PERIOD ≠ 0 →
      g2.periodicChecksum = g.periodicChecksum) ∧
    CHECKSUM_PERIOD = 100 := by
  unfold advanceFrame at hadv
  simp only [bind, Option.bind_eq_some, Option.some.injEq] at hadv
  obtain ⟨st, hst, hg⟩ := hadv
  subst hg
  refine ⟨rfl, ?_, ?_, rfl⟩
  · intro h; simp only [h]; simp
  · intro h; simp only [h]; simp [h]

/-- Witness for C8: the concrete Advance of `sample_advance_eval`; frame 1 is
not a multiple of 100, so the periodic record keeps its initial value. -/
theorem checksum_records_witness :
    sampleGameAfter.lastChecksum
      = (sampleGameAfter.gameState.frame,
         fletcher16 (codec0.ser sampleGameAfter.gameState)) ∧
    (sampleGameAfter.gameState.frame % CHECKSUM_PERIOD = 0 →
      sampleGameAfter.periodicChecksum
        = (sampleGameAfter.gameState.frame,
           fletcher16 (codec0.ser sampleGameAfter.gameState))) ∧
    (sampleGameAfter.gameState.frame % CHECKSUM_PERIOD ≠ 0 →
      sampleGameAfter.periodicChecksum = sampleGame.periodicChecksum) ∧
    CHECKSUM_PERIOD = 100 :=
  checksum_records fops0 codec0 800 sampleGame sampleGameAfter sampleInputs
    sample_advance_eval

/-- Claim C6: when a player's Input Frame carries the sentinel `NULL_FRAME`,
the loop body never decodes that player's buffer (replacing the buffer by any
other buffer gives the identical result) and instead uses the fixed spin
input `4`: the player's velocity gets no thrust term — it is exactly the
friction-decayed (then speed-clamped) old velocity — and the rotation steps
left by `ROTATION_SPEED`, wrapped into `[0, 2π)`. -/
theorem disconnected_spin (f : FloatFns) (w : ℚ) (ins : List GameInput)
    (st : BoxGameState) (i : ℕ) (gi : GameInput) (pos vel : ℚ × ℚ) (rot : ℚ)
    (hi : ins[i]? = some gi) (hf : gi.frame = NULL_FRAME)
    (hp : st.positions[i]? = some pos) (hv : st.velocities[i]? = some vel)
    (hr : st.rotations[i]? = some rot) :
    playerStep f w ins st i = some { st with
      positions := st.positions.set i
        (clampPos w (pos.1 + (clampSpeed f (vel.1 * FRICTION, vel.2 * FRICTION)).1,
                     pos.2 + (clampSpeed f (vel.1 * FRICTION, vel.2 * FRICTION)).2)),
      velocities := st.velocities.set i (clampSpeed f (vel.1 * FRICTION, vel.2 * FRICTION)),
      rotations := st.rotations.set i (remEuclid (rot - ROTATION_SPEED) (2 * f.piQ)) } ∧
    ∀ buf, playerStep f w (ins.set i { frame := NULL_FRAME, buffer := buf }) st i
      = playerStep f w ins st i := by
  have hup : ∀ p v r, updatePlayer f w 4 p v r =
      (clampPos w (p.1 + (clampSpeed f (v.1 * FRICTION, v.2 * FRICTION)).1,
                   p.2 + (clampSpeed f (v.1 * FRICTION, v.2 * FRICTION)).2),
       clampSpeed f (v.1 * FRICTION, v.2 * FRICTION),
       remEuclid (r - ROTATION_SPEED) (2 * f.piQ)) := by
    intro p v r
    have e1 : (4 : ℕ) &&& 1 = 0 := by decide
    have e2 : (4 : ℕ) &&& 2 = 0 := by decide
    have e3 : (4 : ℕ) &&& 4 = 4 := by decide
    have e4 : (4 : ℕ) &&& 8 = 0 := by decide
    simp [updatePlayer, frictionThrustVel, turnRot,
          INPUT_UP, INPUT_DOWN, INPUT_LEFT, INPUT_RIGHT, e1, e2, e3, e4]
  have heval : playerStep f w ins st i = some { st with
      positions := st.positions.set i
        (clampPos w (pos.1 + (clampSpeed f (vel.1 * FRICTION, vel.2 * FRICTION)).1,
                     pos.2 + (clampSpeed f (vel.1 * FRICTION, vel.2 * FRICTION)).2)),
      velocities := st.velocities.set i (clampSpeed f (vel.1 * FRICTION, vel.2 * FRICTION)),
      rotations := st.rotations.set i (remEuclid (rot - ROTATION_SPEED) (2 * f.piQ)) } := by
    simp [playerStep, hi, hp, hv, hr, effInput, hf, hup]
  refine ⟨heval, ?_⟩
  intro buf
  have hlen : i < ins.length := (List.getElem?_eq_some.mp hi).1
  have hi2 : (ins.set i { frame := NULL_FRAME, buffer := buf : GameInput })[i]?
      = some { frame := NULL_FRAME, buffer := buf : GameInput } :=
    List.getElem?_set_eq_of_lt _ (by simpa using hlen)
  rw [heval]
  simp [playerStep, hi2, hp, hv, hr, effInput, hup]

/-- Witness for C6: player 0 is disconnected (frame `-1`, garbage buffer
`[99]`); the loop body spins the player and the garbage buffer is never
read — swapping it for `[123]` changes nothing. -/
theorem disconnected_spin_witness :
    playerStep fops0 800 [⟨NULL_FRAME, [99]⟩, ⟨0, [0]⟩] sampleState 0
      = some { sampleState with
          positions := sampleState.positions.set 0
            (clampPos 800
              (((500 : ℚ), (300 : ℚ)).1
                  + (clampSpeed fops0 ((0 : ℚ) * FRICTION, (0 : ℚ) * FRICTION)).1,
               ((500 : ℚ), (300 : ℚ)).2
                  + (clampSpeed fops0 ((0 : ℚ) * FRICTION, (0 : ℚ) * FRICTION)).2)),
          velocities := sampleState.velocities.set 0
            (clampSpeed fops0 ((0 : ℚ) * FRICTION, (0 : ℚ) * FRICTION)),
          rotations := sampleState.rotations.set 0
            (remEuclid ((0 : ℚ) - ROTATION_SPEED) (2 * fops0.piQ)) } ∧
    playerStep fops0 800
        ([⟨NULL_FRAME, [99]⟩, ⟨0, [0]⟩].set 0 { frame := NULL_FRAME, buffer := [123] })
        sampleState 0
      = playerStep fops0 800 [⟨NULL_FRAME, [99]⟩, ⟨0, [0]⟩] sampleState 0 := by
  have h := disconnected_spin fops0 800 [⟨NULL_FRAME, [99]⟩, ⟨0, [0]⟩]
    sampleState 0 ⟨NULL_FRAME, [99]⟩ (500, 300) (0, 0) 0
    rfl rfl rfl rfl rfl
  exact ⟨h.1, h.2 [123]⟩

/-- Helper for C7: when the abstract square root is exact at the squared
magnitude of `v`, the clamped velocity has squared magnitude at most
`MAX_SPEED²` and is a uniform positive scale (by a factor in `(0, 1]`) of
`v`, preserving its direction. -/
theorem clampSpeed_bounded (f : FloatFns) (v : ℚ × ℚ) (h : GoodSqrtAt f v) :
    (clampSpeed f v).1 * (clampSpeed f v).1 + (clampSpeed f v).2 * (clampSpeed f v).2
      ≤ MAX_SPEED * MAX_SPEED ∧
    ∃ k : ℚ, 0 < k ∧ k ≤ 1 ∧ clampSpeed f v = (k * v.1, k * v.2) := by
  obtain ⟨hm0, hmm⟩ := h
  unfold clampSpeed
  by_cases hc : f.sqrtQ (v.1 * v.1 + v.2 * v.2) > MAX_SPEED
  · have hmpos : 0 < f.sqrtQ (v.1 * v.1 + v.2 * v.2) :=
      lt_trans (by norm_num [MAX_SPEED]) hc
    have hmne : f.sqrtQ (v.1 * v.1 + v.2 * v.2) ≠ 0 := ne_of_gt hmpos
    rw [if_pos hc]
    constructor
    · have key : v.1 * MAX_SPEED / f.sqrtQ (v.1 * v.1 + v.2 * v.2)
            * (v.1 * MAX_SPEED / f.sqrtQ (v.1 * v.1 + v.2 * v.2))
          + v.2 * MAX_SPEED / f.sqrtQ (v.1 * v.1 + v.2 * v.2)
            * (v.2 * MAX_SPEED / f.sqrtQ (v.1 * v.1 + v.2 * v.2))
          = MAX_SPEED * MAX_SPEED := by
        field_simp
        nlinarith [hmm]
      exact le_of_eq key
    · refine ⟨MAX_SPEED / f.sqrtQ (v.1 * v.1 + v.2 * v.2), ?_, ?_, ?_⟩
      · exact div_pos (by norm_num [MAX_SPEED]) hmpos
      · exact (div_le_one hmpos).mpr (le_of_lt hc)
      · rw [Prod.mk.injEq]
        constructor <;> ring
  · rw [if_neg hc]
    push_neg at hc
    refine ⟨?_, 1, by norm_num, by norm_num, by simp⟩
    nlinarith [hm0, hc, hmm]

set_option maxHeartbeats 1000000 in
/-- Claim C7: after an Advance of a two-player state, each player's velocity
is the speed-clamped friction-and-thrust velocity: its squared magnitude is
at most `MAX_SPEED²`, and it is a uniform scale-down (factor in `(0, 1]`) of
the pre-clamp velocity, preserving direction — given that the abstract square
root is exact at the two pre-clamp squared magnitudes. -/
theorem advance_speed_clamp (f : FloatFns) (c : Codec) (w : ℚ) (g g2 : BoxGame)
    (ins : List GameInput) (gi0 gi1 : GameInput) (i0 i1 : ℕ)
    (p0 p1 v0 v1 : ℚ × ℚ) (r0 r1 : ℚ)
    (hins : ins = [gi0, gi1])
    (hpos : g.gameState.positions = [p0, p1])
    (hvel : g.gameState.velocities = [v0, v1])
    (hrot : g.gameState.rotations = [r0, r1])
    (hd0 : effInput gi0 = some i0) (hd1 : effInput gi1 = some i1)
    (h0 : GoodSqrtAt f (frictionThrustVel f i0 v0 r0))
    (h1 : GoodSqrtAt f (frictionThrustVel f i1 v1 r1))
    (hadv : advanceFrame f c w g ins = some g2) :
    g2.gameState.velocities =
      [clampSpeed f (frictionThrustVel f i0 v0 r0),
       clampSpeed f (frictionThrustVel f i1 v1 r1)] ∧
    (∀ u ∈ g2.gameState.velocities,
        u.1 * u.1 + u.2 * u.2 ≤ MAX_SPEED * MAX_SPEED) ∧
    (∃ k : ℚ, 0 < k ∧ k ≤ 1 ∧ clampSpeed f (frictionThrustVel f i0 v0 r0)
       = (k * (frictionThrustVel f i0 v0 r0).1, k * (frictionThrustVel f i0 v0 r0).2)) ∧
    (∃ k : ℚ, 0 < k ∧ k ≤ 1 ∧ clampSpeed f (frictionThrustVel f i1 v1 r1)
       = (k * (frictionThrustVel f i1 v1 r1).1, k * (frictionThrustVel f i1 v1 r1).2)) := by
  obtain ⟨⟨fr, poss, vels, rots⟩, lc, pc⟩ := g
  simp only at hpos hvel hrot
  subst hpos; subst hvel; subst hrot; subst hins
  simp [advanceFrame, advanceState, playerStep, updatePlayer, hd0, hd1] at hadv
  subst hadv
  refine ⟨by simp, ?_, (clampSpeed_bounded f _ h0).2, (clampSpeed_bounded f _ h1).2⟩
  intro u hu
  simp at hu
  rcases hu with h | h <;> subst h
  · exact (clampSpeed_bounded f _ h0).1
  · exact (clampSpeed_bounded f _ h1).1

/-- A state whose first player moves fast enough to trigger the speed clamp:
after friction its velocity is exactly (6, 8), of magnitude 10 > `MAX_SPEED`. -/
def fastGame : BoxGame :=
  { gameState := { frame := 0, positions := [(100, 100), (200, 300)],
                   velocities := [(300 / 49, 400 / 49), (0, 0)],
                   rotations := [0, 0] },
    lastChecksum := (NULL_FRAME, 0), periodicChecksum := (NULL_FRAME, 0) }

/-- The state one Advance after `fastGame`: player 0's velocity is clamped to
(21/5, 28/5), of magnitude exactly `MAX_SPEED`. -/
def fastGameAfter : BoxGame :=
  { gameState := { frame := 1, positions := [(521 / 5, 528 / 5), (200, 300)],
                   velocities := [(21 / 5, 28 / 5), (0, 0)],
                   rotations := [0, 0] },
    lastChecksum := (1, 0), periodicChecksum := (NULL_FRAME, 0) }

set_option maxHeartbeats 1000000 in
/-- Evaluation of the clamping Advance used by the C7 witness. -/
theorem fast_advance_eval :
    advanceFrame fops0 codec0 800 fastGame sampleInputs = some fastGameAfter := by
  norm_num [advanceFrame, advanceState, playerStep, effInput, decodeInputByte,
    updatePlayer, frictionThrustVel, turnRot, clampSpeed, clampPos, fletcher16,
    fops0, codec0, fastGame, fastGameAfter, sampleInputs,
    NULL_FRAME, INPUT_UP, INPUT_DOWN, INPUT_LEFT, INPUT_RIGHT,
    MOVEMENT_SPEED, ROTATION_SPEED, MAX_SPEED, FRICTION, CHECKSUM_PERIOD]

/-- Witness for C7: the concrete clamping Advance from `fastGame`. -/
theorem advance_speed_clamp_witness :
    fastGameAfter.gameState.velocities =
      [clampSpeed fops0 (frictionThrustVel fops0 0 (300 / 49, 400 / 49) 0),
       clampSpeed fops0 (frictionThrustVel fops0 0 (0, 0) 0)] ∧
    (∀ u ∈ fastGameAfter.gameState.velocities,
        u.1 * u.1 + u.2 * u.2 ≤ MAX_SPEED * MAX_SPEED) ∧
    (∃ k : ℚ, 0 < k ∧ k ≤ 1 ∧
      clampSpeed fops0 (frictionThrustVel fops0 0 (300 / 49, 400 / 49) 0)
        = (k * (frictionThrustVel fops0 0 (300 / 49, 400 / 49) 0).1,
           k * (frictionThrustVel fops0 0 (300 / 49, 400 / 49) 0).2)) ∧
    (∃ k : ℚ, 0 < k ∧ k ≤ 1 ∧
      clampSpeed fops0 (frictionThrustVel fops0 0 (0, 0) 0)
        = (k * (frictionThrustVel fops0 0 (0, 0) 0).1,
           k * (frictionThrustVel fops0 0 (0, 0) 0).2)) :=
  advance_speed_clamp fops0 codec0 800 fastGame fastGameAfter sampleInputs
    ⟨0, [0]⟩ ⟨0, [0]⟩ 0 0 (100, 100) (200, 300) (300 / 49, 400 / 49) (0, 0) 0 0
    rfl rfl rfl rfl rfl rfl
    (by norm_num [GoodSqrtAt, frictionThrustVel, fops0, FRICTION,
      MOVEMENT_SPEED, INPUT_UP, INPUT_DOWN])
    (by norm_num [GoodSqrtAt, frictionThrustVel, fops0, FRICTION,
      MOVEMENT_SPEED, INPUT_UP, INPUT_DOWN])
    fast_advance_eval

/-- The result of the same Advance as `sample_advance_eval` but with screen
width 400: player 0's x-position 500 is clipped to 400. -/
def sampleGameAfter400 : BoxGame :=
  { gameState := { frame := 1, positions := [(400, 300), (200, 300)],
                   velocities := [(0, 0), (0, 0)], rotations := [0, 0] },
    lastChecksum := (1, 0), periodicChecksum := (NULL_FRAME, 0) }

set_option maxHeartbeats 1000000 in
/-- Evaluation of the concrete Advance under screen width 400. -/
theorem sample_advance_eval_400 :
    advanceFrame fops0 codec0 400 sampleGame sampleInputs = some sampleGameAfter400 := by
  norm_num [advanceFrame, advanceState, playerStep, effInput, decodeInputByte,
    updatePlayer, frictionThrustVel, turnRot, clampSpeed, clampPos, fletcher16,
    fops0, codec0, sampleGame, sampleState, sampleInputs, sampleGameAfter400,
    NULL_FRAME, INPUT_UP, INPUT_DOWN, INPUT_LEFT, INPUT_RIGHT,
    MOVEMENT_SPEED, ROTATION_SPEED, MAX_SPEED, FRICTION, CHECKSUM_PERIOD]

/-- Claim C1 (counterexample): the transition function reads the live screen
width — external state that is part of neither the Simulation State nor the
Input Frames — so two independent executions from the identical starting
state with the identical input sequence need not agree: with screen width
800 player 0 stays at x = 500, with screen width 400 the same Advance clips
it to x = 400, and the resulting states differ. -/
theorem determinism_counterexample :
    advanceSeq fops0 codec0 800 sampleGame [sampleInputs] = some sampleGameAfter ∧
    advanceSeq fops0 codec0 400 sampleGame [sampleInputs] = some sampleGameAfter400 ∧
    sampleGameAfter ≠ sampleGameAfter400 := by
  refine ⟨?_, ?_, ?_⟩
  · simp [advanceSeq, sample_advance_eval]
  · simp [advanceSeq, sample_advance_eval_400]
  · intro h
    have := congrArg (fun g => g.gameState.positions) h
    simp [sampleGameAfter, sampleGameAfter400] at this

/-- Claim C1 (amended): determinism holds once the execution environment is
itself replayed: for an identical starting engine, an identical sequence of
per-player Input Frame batches, and identical screen width, codec and float
primitives, two executions of the transition function that both complete
produce equal engines — in particular byte-identical states and identical
last and periodic checksum records. -/
theorem determinism_amended (f : FloatFns) (c : Codec) (w : ℚ)
    (g1 g2 : BoxGame) (ins1 ins2 : List (List GameInput)) (r1 r2 : BoxGame)
    (hg : g1 = g2) (hins : ins1 = ins2)
    (h1 : advanceSeq f c w g1 ins1 = some r1)
    (h2 : advanceSeq f c w g2 ins2 = some r2) :
    r1 = r2 ∧ r1.gameState = r2.gameState ∧
    r1.lastChecksum = r2.lastChecksum ∧
    r1.periodicChecksum = r2.periodicChecksum := by
  subst hg; subst hins
  rw [h1] at h2
  injection h2 with h
  subst h
  exact ⟨rfl, rfl, rfl, rfl⟩

/-- Witness for C1 (amended): two replayed executions of the concrete Advance
from `sampleGame` agree. -/
theorem determinism_amended_witness :
    sampleGameAfter = sampleGameAfter ∧
    sampleGameAfter.gameState = sampleGameAfter.gameState ∧
    sampleGameAfter.lastChecksum = sampleGameAfter.lastChecksum ∧
    sampleGameAfter.periodicChecksum = sampleGameAfter.periodicChecksum :=
  determinism_amended fops0 codec0 800 sampleGame sampleGame
    [sampleInputs] [sampleInputs] sampleGameAfter sampleGameAfter rfl rfl
    (by simp [advanceSeq, sample_advance_eval])
    (by simp [advanceSeq, sample_advance_eval])

/-- A two-player state whose first player sits at y = 700: legal for a
playfield of height at least 700, but also reachable under a 800×600 screen
by loading a snapshot or resizing the window. -/
def tallGame : BoxGame :=
  { gameState := { frame := 0, positions := [(500, 700), (200, 300)],
                   velocities := [(0, 0), (0, 0)], rotations := [0, 0] },
    lastChecksum := (NULL_FRAME, 0), periodicChecksum := (NULL_FRAME, 0) }

set_option maxHeartbeats 1000000 in
/-- Claim C3 (code bug): `advance_frame` clamps BOTH position axes with
`screen_width()` — line 151 of `box_game.rs` computes `y.min(screen_width())`
instead of `y.min(screen_height())`, against its own comment "constrain boxes
to canvas borders".  On an 800-wide, 600-high playfield, a player at y = 700
with zero velocity still has y = 700 > 600 after the Advance: the position is
not clamped into `[0, field-height]` on the y axis. -/
theorem position_bound_bug :
    advanceFrame fops0 codec0 800 tallGame sampleInputs
      = some { gameState := { frame := 1, positions := [(500, 700), (200, 300)],
                              velocities := [(0, 0), (0, 0)], rotations := [0, 0] },
               lastChecksum := (1, 0), periodicChecksum := (NULL_FRAME, 0) } ∧
    ¬((700 : ℚ) ≤ 600) := by
  constructor
  · norm_num [advanceFrame, advanceState, playerStep, effInput, decodeInputByte,
      updatePlayer, frictionThrustVel, turnRot, clampSpeed, clampPos, fletcher16,
      fops0, codec0, tallGame, sampleInputs,
      NULL_FRAME, INPUT_UP, INPUT_DOWN, INPUT_LEFT, INPUT_RIGHT,
      MOVEMENT_SPEED, ROTATION_SPEED, MAX_SPEED, FRICTION, CHECKSUM_PERIOD]
  · norm_num

end BoxGameModel
